import Mathlib

/-!
Verification of the seq2seq machine-translation notebooks.

The repository is a set of instructional notebooks: tensor basics
(lab1.1), an LSTM encoder/decoder translation lab (unnamed part_000),
a GRU/attention lab (lab5.1), a bonus lab (lab4.2), and a BLEU
evaluation lab (unnamed part_001).  The development below is a shallow
embedding of the repository-defined operations:

  * network scores are modelled as rationals (idealising the framework
    floats); tensors are nested lists in the same layout as the code;
  * framework layers (embedding lookup, GRU cell, linear projection)
    are opaque function parameters, since their mathematics is entirely
    delegated to the framework; the repository-authored wiring around
    them (the decoding loop, the attention softmax, the loss slicing,
    the training loop, the data subsetting) is translated statement by
    statement;
  * effectful code (file writes, exception flow, loop scheduling) is
    modelled by explicit catalogues and operation traces transcribed
    from the source.
-/

/-- Model of torch.argmax along the last dimension, restricted to one row
of scores: returns the pair (index, value) of the first maximal entry of
the list (the empty row, an error in the framework, is mapped to (0, 0)). -/
def argmaxPair : List ℚ → Nat × ℚ
  | [] => (0, 0)
  | [x] => (0, x)
  | x :: y :: xs =>
      let p := argmaxPair (y :: xs)
      if x < p.2 then (p.1 + 1, p.2) else (0, x)

/-- Index of the first maximal entry of a row of scores (torch.argmax). -/
def argmaxIdx (l : List ℚ) : Nat := (argmaxPair l).1

/-- Model of torch tensor item assignment t[i] = v on one row. -/
def setIdx : List ℚ → Nat → ℚ → List ℚ
  | [], _, _ => []
  | _ :: xs, 0, v => v :: xs
  | x :: xs, n + 1, v => x :: setIdx xs n v

/-- The size of the last tensor dimension of a source batch laid out as
src.shape = (src_len, batch_size): src.shape[-1] read off the nested-list
representation (rows of the rectangular tensor all share this length). -/
def lastDimLen (src : List (List Nat)) : Nat := (src.headD []).length

/-- The Seq2Seq module of the BLEU notebook (unnamed part_001; the same
class in unnamed part_000 is the identical scaffold left as an exercise).
The stored encoder and decoder submodules are opaque framework
compositions (embedding, dropout, GRU/LSTM, linear, attention); only
their types are fixed here:

  * encoder: source batch to (enc_outputs, context/final hidden state);
  * decoder: (input token indices per batch element, hidden state,
    encoder outputs) to (predicted scores [batch, trg_vocab],
    next hidden state, attention weights).
-/
structure Seq2Seq (ε η : Type) where
  trg_vocab_size : Nat
  encoder : List (List Nat) → ε × η
  decoder : List Nat → η → ε → List (List ℚ) × η × List (List ℚ)

/-- The body of the decoding loop of Seq2Seq.forward, run once per target
position t = 1 .. trg_len - 1.  Each step applies the decoder once to the
current (input_idx, hidden), stores the prediction and the attention of
the step, and feeds the per-element argmax of the prediction as the next
input_idx. -/
def decodeLoop {ε η : Type} (m : Seq2Seq ε η) (enc_outputs : ε) :
    Nat → List Nat → η → List (List (List ℚ) × List (List ℚ))
  | 0, _, _ => []
  | n + 1, input_idx, hidden =>
      let r := m.decoder input_idx hidden enc_outputs
      (r.1, r.2.2) :: decodeLoop m enc_outputs n (r.1.map argmaxIdx) r.2.1

/-- Seq2Seq.forward of the BLEU notebook.  Returns the stack of predicted
score rows (position 0 is the constant one-hot of the start token, index
2) together with the per-step attention maps for steps 1 .. trg_len - 1
(the source stores these into a preallocated [batch, src_len, trg_len]
tensor whose step-0 slice stays zero; the layout permutation is not
relevant to any claim and is not modelled). -/
def Seq2Seq.forward {ε η : Type} (m : Seq2Seq ε η) (src : List (List Nat))
    (trg_len : Nat) : List (List (List ℚ)) × List (List (List ℚ)) :=
  let batch_size := lastDimLen src
  let row0 := List.replicate batch_size (setIdx (List.replicate m.trg_vocab_size 0) 2 1)
  let enc := m.encoder src
  let input_idx := List.replicate batch_size 2
  let steps := decodeLoop m enc.1 (trg_len - 1) input_idx enc.2
  (row0 :: steps.map Prod.fst, steps.map Prod.snd)

/-- One greedy decoding transition: apply the decoder and take the
per-batch-element argmax of its prediction as the next input. -/
def gstep {ε η : Type} (m : Seq2Seq ε η) (e : ε) (s : List Nat × η) :
    List Nat × η :=
  let r := m.decoder s.1 s.2 e
  (r.1.map argmaxIdx, r.2.1)

/-- The greedy decoder state (input indices, hidden state) entering step
t + 1 of the loop, starting from the start-token batch and the encoder
final hidden state. -/
def greedyState {ε η : Type} (m : Seq2Seq ε η) (e : ε) (h0 : η) (B : Nat)
    (t : Nat) : List Nat × η :=
  (gstep m e)^[t] (List.replicate B 2, h0)

/-- Softmax over one row (nn.Softmax along the source-position dimension),
parameterised by the exponential primitive e of the framework: each entry
x of the row becomes e x divided by the sum of e over the whole row. -/
def softmaxWith (e : ℚ → ℚ) (l : List ℚ) : List ℚ :=
  l.map (fun x => e x / (l.map e).sum)

/-- The Attention module of the BLEU notebook.  energy_score abstracts
the composition self.v (self.energy_layer [dec_hidden ; enc_output_s])
of the two framework linear layers and the tanh, applied to the decoder
hidden state paired with the encoder output of one source position (the
repeat / permute / cat tensor moves of the source realise exactly this
per-position application over the batch).  expf abstracts the
exponential used by nn.Softmax. -/
structure Attention where
  energy_score : List ℚ → List ℚ → ℚ
  expf : ℚ → ℚ

/-- Attention.forward of the BLEU notebook, for one batch element: the
energies of the decoder hidden state against every encoder output, then
softmax over the source positions. -/
def Attention.forward (A : Attention) (dec_hidden : List ℚ)
    (enc_outputs : List (List ℚ)) : List ℚ :=
  softmaxWith A.expf (enc_outputs.map (fun h => A.energy_score dec_hidden h))

/-- Scalar multiple of one vector (row of a tensor). -/
def scaleVec (c : ℚ) (v : List ℚ) : List ℚ := v.map (fun x => c * x)

/-- Pointwise sum of two vectors. -/
def addVec (v w : List ℚ) : List ℚ := List.zipWith (fun a b => a + b) v w

/-- The weighted sum torch.bmm(a, enc_outputs) computes for one batch
element: the attention-weighted combination of the encoder outputs. -/
def weightedSumVec (a : List ℚ) (vs : List (List ℚ)) : List ℚ :=
  (List.zipWith scaleVec a vs).foldr addVec
    (List.replicate (vs.headD []).length 0)

/-- The Decoder module of the BLEU notebook.  The framework layers are
opaque parameters with the field names of the source; gru maps the
concatenated rnn_input and the previous hidden state to (output, next
hidden state). -/
structure Decoder where
  embedding_layer : Nat → List ℚ
  dropout_layer : List ℚ → List ℚ
  gru : List ℚ → List ℚ → List ℚ × List ℚ
  linear_layer : List ℚ → List ℚ
  attention : Attention

/-- Decoder.forward of the BLEU notebook, for one batch element (the
batched source code applies exactly this computation elementwise over
the batch: torch.bmm is a per-element product and torch.cat on dim 2 a
per-element concatenation).  It embeds the input token, recomputes the
attention of the incoming hidden state over all encoder outputs, feeds
the embedding concatenated with the attention-weighted encoder sum into
the GRU, and projects the GRU output to vocabulary scores. -/
def Decoder.forward (D : Decoder) (input_idx : Nat) (input_hidden : List ℚ)
    (enc_outputs : List (List ℚ)) : List ℚ × List ℚ × List ℚ :=
  let y := D.dropout_layer (D.embedding_layer input_idx)
  let a := D.attention.forward input_hidden enc_outputs
  let weighted := weightedSumVec a enc_outputs
  let rnn_input := y ++ weighted
  let oh := D.gru rnn_input input_hidden
  (D.linear_layer oh.1, oh.2, a)

/-- The elementwise batched form of Decoder.forward, as invoked by the
decoding loop of Seq2Seq.forward on a batch of token indices and a batch
of per-element hidden states. -/
def batchDecoder (D : Decoder) (idxs : List Nat) (hs : List (List ℚ))
    (enc : List (List ℚ)) :
    List (List ℚ) × List (List ℚ) × List (List ℚ) :=
  (((idxs.zip hs).map (fun p => D.forward p.1 p.2 enc)).map (fun r => r.1),
   ((idxs.zip hs).map (fun p => D.forward p.1 p.2 enc)).map (fun r => r.2.1),
   ((idxs.zip hs).map (fun p => D.forward p.1 p.2 enc)).map (fun r => r.2.2))

/-- Assembling the Seq2Seq module of the BLEU notebook from an opaque
encoder and the concrete attention decoder. -/
def mkAttnSeq2Seq (V : Nat)
    (encF : List (List Nat) → List (List ℚ) × List (List ℚ)) (D : Decoder) :
    Seq2Seq (List (List ℚ)) (List (List ℚ)) :=
  ⟨V, encF, batchDecoder D⟩

/-- The loss computed by one batch of training_seq2seq (unnamed
part_000): the prediction tensor [trg_len, batch, vocab] is sliced to
pred_probas[1:], flattened by view(-1, output_dim); the target tensor
[trg_len, batch] is sliced to trg[1:] and flattened by view(-1); the
framework loss (cross entropy with ignore_index, opaque here) is applied
to the two.  loss_fn abstracts nn.CrossEntropyLoss. -/
def training_seq2seq_loss (loss_fn : List (List ℚ) → List Nat → ℚ)
    (pred_probas : List (List (List ℚ))) (trg : List (List Nat)) : ℚ :=
  loss_fn (pred_probas.drop 1).flatten (trg.drop 1).flatten

/-- The identical per-batch loss computation of evaluate_seq2seq
(unnamed part_000; the copies in lab4.2 and lab5.1 are verbatim). -/
def evaluate_seq2seq_loss (loss_fn : List (List ℚ) → List Nat → ℚ)
    (pred_probas : List (List (List ℚ))) (trg : List (List Nat)) : ℚ :=
  loss_fn (pred_probas.drop 1).flatten (trg.drop 1).flatten

/-- The identical per-batch loss computation of training_validation_bleu
(unnamed part_001; training_validation_seq2seq in lab5.1 is verbatim). -/
def training_validation_bleu_loss (loss_fn : List (List ℚ) → List Nat → ℚ)
    (pred_probas : List (List (List ℚ))) (trg : List (List Nat)) : ℚ :=
  loss_fn (pred_probas.drop 1).flatten (trg.drop 1).flatten

set_option linter.unusedVariables false in
/-- The data subsetting performed by the BLEU notebook (unnamed
part_001, identical in lab5.1) right after Multi30k.splits, in source
statement order:
  train_data.examples = train_data.examples[:1000]
  valid_data.examples = valid_data.examples[:100]
  test_data.examples  = train_data.examples[:100]
the third line reading the already truncated training list. -/
def bleu_data_setup {α : Type} (train_ex valid_ex test_ex : List α) :
    List α × List α × List α :=
  let train2 := train_ex.take 1000
  let valid2 := valid_ex.take 100
  let test2 := train2.take 100
  (train2, valid2, test2)

/-- The start-of-sentence token string used by the Field configuration
(init_token of SRC and TRG). -/
def sosToken : String := "<sos>"

/-- The token index hardwired by Seq2Seq.forward in both labs: the
initial decoder input is torch.ones(batch_size) * 2 and the position-0
prediction sets pred_probas[0, :, 2] = 1, with the comment that 2 codes
the start-of-sentence token. -/
def startTokenIndex : Nat := 2

/-- Correctness condition of the hardwired start index against a
vocabulary lookup table: the index-to-string table maps the index
actually used by Seq2Seq.forward to the start-of-sentence token. -/
def startsFromSos (itos : List String) : Prop :=
  itos.get? startTokenIndex = some sosToken

instance (itos : List String) : Decidable (startsFromSos itos) := by
  unfold startsFromSos; infer_instance

/-- Modelled from the spec and the notebook documentation: the
index-to-string table produced by Field.build_vocab (torchtext), which
is not part of the repository sources.  Part_000 documents it as: the
first tokens in the vocabulary are unknown word, padding, start of
sentence and end of sequence, then the tokens ranked by frequency. -/
def build_vocab_itos (words : List String) : List String :=
  ["<unk>", "<pad>", "<sos>", "<eos>"] ++ words

/-- The kind of value handed to a framework save routine. -/
inductive SavedValue
  | stateDict (model : String)
  | wholeModule (model : String)
  | tensorValue (name : String)
  | numpyArray (name : String)
deriving DecidableEq

/-- One disk write performed by repository code. -/
structure FileWrite where
  unit : String
  routine : String
  target : String
  value : SavedValue
deriving DecidableEq

/-- Catalogue of every file-writing call in the repository sources
(transcribed; loads such as torch.load and np.load read, they do not
write, and matplotlib is only used with plt.show, never savefig). -/
def repoFileWrites : List FileWrite :=
  [ ⟨"lab1.1_basics.ipynb cells", "numpy.save", "x_np.npy",
      SavedValue.numpyArray "x_np"⟩,
    ⟨"lab1.1_basics.ipynb cells", "torch.save", "x_tensor.pt",
      SavedValue.tensorValue "x_tensor"⟩,
    ⟨"lab1.1_basics.ipynb cells", "torch.save", "fnn_model.pt",
      SavedValue.wholeModule "linear_layer"⟩,
    ⟨"lab1.1_basics.ipynb cells", "torch.save", "fnn_model_params.pt",
      SavedValue.stateDict "linear_layer"⟩,
    ⟨"part_000 training_seq2seq", "torch.save", "lstm_model.pt",
      SavedValue.stateDict "model"⟩ ]

/-- A write is an ad hoc checkpoint in the sense of the spec sentence:
the framework torch.save routine applied to a state_dict. -/
def isStateDictSave (w : FileWrite) : Bool :=
  w.routine == "torch.save" &&
    match w.value with
    | SavedValue.stateDict _ => true
    | _ => false

/-- A write delegated to a framework save routine of any kind. -/
def isFrameworkSave (w : FileWrite) : Bool :=
  w.routine == "torch.save" || w.routine == "numpy.save"

/-- The writes issued from inside the seq2seq training loops. -/
def trainingLoopWrites : List FileWrite :=
  [ ⟨"part_000 training_seq2seq", "torch.save", "lstm_model.pt",
      SavedValue.stateDict "model"⟩ ]

/-- Statement kinds of the Python sources, for the syntactic catalogue
(loop and branch bodies are inlined in source order after their header
kind; comment-only lines are omitted). -/
inductive StmtKind
  | assign | augAssign | exprCall | forLoop | ifBranch | breakStmt
  | withBlock | importLine | returnStmt | funcDef | classDef
  | tryBlock | exceptClause | raiseStmt | assertStmt
deriving DecidableEq

/-- One repository-defined function (or class method), with the kinds of
its body statements in source order and the call targets appearing in
its body. -/
structure PyFunction where
  name : String
  unit : String
  stmts : List StmtKind
  calls : List String

/-- Catalogue of every function and method defined by the repository
sources, transcribed file by file.  Bodies left as TO DO exercises in
the teaching scaffolds contribute only the statements actually
present. -/
def repoFunctions : List PyFunction :=
  [ -- unnamed/part_000 (LSTM translation lab)
    ⟨"tokenize_de", "part_000", [.returnStmt], ["spacy_de.tokenizer"]⟩,
    ⟨"tokenize_en", "part_000", [.returnStmt], ["spacy_en.tokenizer"]⟩,
    ⟨"Encoder.__init__", "part_000", [.exprCall], ["super().__init__"]⟩,
    ⟨"Encoder.forward", "part_000", [.returnStmt], []⟩,
    ⟨"Decoder.__init__", "part_000", [.exprCall], ["super().__init__"]⟩,
    ⟨"Decoder.forward", "part_000", [.assign, .assign, .returnStmt],
      ["self.dropout_layer", "self.embedding_layer", "y.unsqueeze"]⟩,
    ⟨"Seq2Seq.__init__", "part_000",
      [.exprCall, .assign, .assign, .assign], ["super().__init__"]⟩,
    ⟨"Seq2Seq.forward", "part_000",
      [.assign, .assign, .assign, .assign, .forLoop, .returnStmt],
      ["torch.zeros", "torch.ones", "range"]⟩,
    ⟨"training_seq2seq", "part_000",
      [.exprCall, .exprCall, .assign, .forLoop, .assign, .forLoop,
       .assign, .assign, .exprCall, .assign, .assign, .assign, .assign,
       .assign, .assign, .exprCall, .exprCall, .exprCall, .augAssign,
       .exprCall, .ifBranch, .exprCall, .exprCall, .returnStmt],
      ["model.train", "model.to", "range", "enumerate", "batch.src.to",
       "batch.trg.to", "optimizer.zero_grad", "model",
       "pred_probas.view", "trg.view", "loss_fn", "loss.backward",
       "torch.nn.utils.clip_grad_norm_", "optimizer.step", "loss.item",
       "loss_total.append", "print", "model.state_dict", "torch.save"]⟩,
    ⟨"evaluate_seq2seq", "part_000",
      [.exprCall, .exprCall, .assign, .forLoop, .assign, .assign,
       .assign, .assign, .assign, .assign, .assign, .assign, .augAssign,
       .returnStmt],
      ["model.eval", "model.to", "enumerate", "batch.src.to",
       "batch.trg.to", "model", "pred_probas.view", "trg.view",
       "loss_fn", "loss.item"]⟩,
    -- unnamed/part_001 (BLEU evaluation lab)
    ⟨"tokenize_de", "part_001", [.returnStmt], ["spacy_de.tokenizer"]⟩,
    ⟨"tokenize_en", "part_001", [.returnStmt], ["spacy_en.tokenizer"]⟩,
    ⟨"itos_list_de", "part_001", [.returnStmt], ["range", "len"]⟩,
    ⟨"itos_list_en", "part_001", [.returnStmt], ["range", "len"]⟩,
    ⟨"Encoder.__init__", "part_001",
      [.exprCall, .assign, .assign, .assign, .assign, .assign, .assign,
       .assign, .assign],
      ["super().__init__", "nn.Embedding", "nn.Dropout", "nn.GRU"]⟩,
    ⟨"Encoder.forward", "part_001",
      [.assign, .assign, .assign, .returnStmt],
      ["self.embedding_layer", "self.dropout", "self.gru"]⟩,
    ⟨"Attention.__init__", "part_001", [.exprCall, .assign, .assign],
      ["super().__init__", "nn.Sequential", "nn.Linear",
       "torch.nn.Tanh"]⟩,
    ⟨"Attention.forward", "part_001",
      [.assign, .assign, .assign, .assign, .assign, .assign, .assign,
       .assign, .assign, .returnStmt],
      ["dec_hidden.squeeze", "dec_hidden.unsqueeze", "dec_hidden.repeat",
       "dec_hidden.permute", "enc_outputs.permute", "torch.cat",
       "self.energy_layer", "self.v", "attn.squeeze", "nn.Softmax"]⟩,
    ⟨"Decoder.__init__", "part_001",
      [.exprCall, .assign, .assign, .assign, .assign, .assign, .assign,
       .assign, .assign, .assign, .assign, .assign],
      ["super().__init__", "nn.Embedding", "nn.Dropout", "nn.GRU",
       "nn.Linear", "Attention"]⟩,
    ⟨"Decoder.forward", "part_001",
      [.assign, .assign, .assign, .assign, .assign, .assign, .assign,
       .assign, .assign, .assign, .assign, .returnStmt],
      ["self.dropout_layer", "self.embedding_layer", "y.unsqueeze",
       "self.attention", "a.unsqueeze", "enc_outputs.permute",
       "torch.bmm", "weighted.permute", "torch.cat", "self.gru",
       "output.squeeze", "self.linear_layer"]⟩,
    ⟨"Seq2Seq.__init__", "part_001",
      [.exprCall, .assign, .assign, .assign], ["super().__init__"]⟩,
    ⟨"Seq2Seq.forward", "part_001",
      [.assign, .assign, .assign, .assign, .assign, .assign, .assign,
       .forLoop, .assign, .assign, .assign, .assign, .returnStmt],
      ["torch.zeros", "self.encoder", "torch.ones", "range",
       "self.decoder", "pred_proba_t.argmax", "a.squeeze"]⟩,
    ⟨"cut_tokens", "part_001", [.returnStmt], []⟩,
    ⟨"evaluate_bleu", "part_001",
      [.exprCall, .exprCall, .assign, .assign, .assign, .forLoop,
       .assign, .assign, .assign, .assign, .assign, .returnStmt],
      ["model.eval", "model.to", "batch.src.to", "batch.trg.to",
       "model", "torch.argmax", "bleu_score"]⟩,
    ⟨"training_validation_bleu", "part_001",
      [.exprCall, .exprCall, .assign, .assign, .forLoop, .assign,
       .forLoop, .assign, .assign, .exprCall, .assign, .assign, .assign,
       .assign, .assign, .assign, .exprCall, .exprCall, .exprCall,
       .augAssign, .exprCall, .ifBranch, .exprCall, .returnStmt],
      ["model.train", "model.to", "range", "enumerate", "batch.src.to",
       "batch.trg.to", "optimizer.zero_grad", "model",
       "pred_probas.view", "trg.view", "loss_fn", "loss.backward",
       "torch.nn.utils.clip_grad_norm_", "optimizer.step", "loss.item",
       "loss_train_total.append", "print"]⟩,
    -- lab5.1_rnn_attention.ipynb (attention lab, exercise scaffold)
    ⟨"tokenize_de", "lab5.1", [.returnStmt], ["spacy_de.tokenizer"]⟩,
    ⟨"tokenize_en", "lab5.1", [.returnStmt], ["spacy_en.tokenizer"]⟩,
    ⟨"itos_list_de", "lab5.1", [.returnStmt], ["range", "len"]⟩,
    ⟨"itos_list_en", "lab5.1", [.returnStmt], ["range", "len"]⟩,
    ⟨"Encoder.__init__", "lab5.1", [.exprCall], ["super().__init__"]⟩,
    ⟨"Encoder.forward", "lab5.1", [.returnStmt], []⟩,
    ⟨"Attention.__init__", "lab5.1", [.exprCall], ["super().__init__"]⟩,
    ⟨"Attention.forward", "lab5.1", [.returnStmt], []⟩,
    ⟨"Decoder.__init__", "lab5.1",
      [.exprCall, .assign, .assign, .assign, .assign, .assign, .assign],
      ["super().__init__"]⟩,
    ⟨"Decoder.forward", "lab5.1", [.assign, .assign, .returnStmt],
      ["self.dropout_layer", "self.embedding_layer", "y.unsqueeze"]⟩,
    ⟨"evaluate_seq2seq", "lab5.1",
      [.exprCall, .exprCall, .assign, .forLoop, .assign, .assign,
       .assign, .assign, .assign, .assign, .assign, .assign, .augAssign,
       .returnStmt],
      ["model.eval", "model.to", "enumerate", "batch.src.to",
       "batch.trg.to", "model", "pred_probas.view", "trg.view",
       "loss_fn", "loss.item"]⟩,
    ⟨"training_validation_seq2seq", "lab5.1",
      [.exprCall, .exprCall, .assign, .assign, .assign, .forLoop,
       .assign, .forLoop, .assign, .assign, .exprCall, .assign, .assign,
       .assign, .assign, .assign, .assign, .exprCall, .exprCall,
       .exprCall, .augAssign, .exprCall, .ifBranch, .exprCall,
       .returnStmt],
      ["model.train", "model.to", "range", "enumerate", "batch.src.to",
       "batch.trg.to", "optimizer.zero_grad", "model",
       "pred_probas.view", "trg.view", "loss_fn", "loss.backward",
       "torch.nn.utils.clip_grad_norm_", "optimizer.step", "loss.item",
       "loss_train_total.append", "print", "float"]⟩,
    ⟨"vizualize_attention", "lab5.1",
      [.assign, .assign, .assign, .assign, .forLoop, .exprCall,
       .ifBranch, .breakStmt, .assign, .forLoop, .exprCall, .ifBranch,
       .breakStmt, .assign, .assign, .assign, .exprCall, .exprCall,
       .exprCall, .exprCall, .exprCall, .exprCall, .exprCall,
       .returnStmt],
      ["plt.figure", "fig.add_subplot", "attention.squeeze",
       "y_ticks.append", "x_ticks.append", "ax.matshow",
       "ax.tick_params", "ax.set_xticklabels", "ax.set_yticklabels",
       "ticker.MultipleLocator", "ax.xaxis.set_major_locator",
       "ax.yaxis.set_major_locator", "plt.show", "plt.close", "len"]⟩,
    -- lab4.2_bonus.ipynb (bonus lab)
    ⟨"tokenize_de", "lab4.2", [.returnStmt], ["spacy_de.tokenizer"]⟩,
    ⟨"tokenize_en", "lab4.2", [.returnStmt], ["spacy_en.tokenizer"]⟩,
    ⟨"itos_list_de", "lab4.2", [.returnStmt], ["range", "len"]⟩,
    ⟨"itos_list_en", "lab4.2", [.returnStmt], ["range", "len"]⟩,
    ⟨"evaluate_seq2seq", "lab4.2",
      [.exprCall, .exprCall, .assign, .forLoop, .assign, .assign,
       .assign, .assign, .assign, .assign, .assign, .assign, .augAssign,
       .returnStmt],
      ["model.eval", "model.to", "enumerate", "batch.src.to",
       "batch.trg.to", "model", "pred_probas.view", "trg.view",
       "loss_fn", "loss.item"]⟩ ]
    -- lab1.1_basics.ipynb defines no functions; its cells are
    -- catalogued in repoTopLevelCalls below.

/-- Call targets appearing in the top-level notebook cells of each
source file (outside any function definition), transcribed for the
completeness checks on write routines and concurrency primitives. -/
def repoTopLevelCalls : List (String × List String) :=
  [ ("lab1.1_basics.ipynb",
     ["np.zeros", "np.ones", "np.array", "np.random.randn", "print",
      "torch.from_numpy", "x_tensor.numpy", "torch.zeros", "x.fill_",
      "torch.randn_like", "torch.arange", "plt.imshow", "plt.show",
      "enumerate", "torch.ones", "torch.randn", "torch.exp",
      "torch.rand", "x.type", "torch.tensor", "x.is_floating_point",
      "torch.cuda.is_available", "torch.cuda.device_count",
      "torch.device", "x.to", "x.transpose", "x.t", "x.reshape",
      "x.view", "torch.cat", "x.squeeze", "x.unsqueeze", "torch.stack",
      "x.min", "x.max", "x.argmin", "x.argmax", "x.sort", "np.save",
      "np.load", "torch.save", "torch.load", "x.requires_grad_",
      "x.mean", "y.backward", "nn.Linear", "nn.Sigmoid",
      "activation_fn", "linear_layer", "input_image.reshape",
      "input_image.numpy", "nn.BCELoss", "loss_fn", "loss.item",
      "loss.backward", "torch.optim.SGD", "linear_layer.parameters",
      "optimizer.step", "model.load_state_dict",
      "linear_layer.state_dict"]),
    ("unnamed/part_000",
     ["random.seed", "np.random.seed", "torch.manual_seed",
      "spacy.load", "print", "tokenize_en", "Field", "Multi30k.splits",
      "len", "SRC.build_vocab", "TRG.build_vocab", "range",
      "BucketIterator.splits", "next", "iter", "nn.Embedding",
      "src_emb_layer", "nn.Dropout", "dropout_layer", "nn.RNN", "rnn",
      "nn.LSTM", "lstm", "Encoder", "sum", "lstm_encoder.parameters",
      "lstm_encoder", "Decoder", "lstm_decoder.parameters",
      "lstm_decoder", "torch.ones", "Seq2Seq", "model.parameters",
      "optim.Adam", "nn.CrossEntropyLoss", "training_seq2seq"]),
    ("unnamed/part_001",
     ["random.seed", "np.random.seed", "torch.manual_seed",
      "spacy.load", "Field", "Multi30k.splits", "SRC.build_vocab",
      "TRG.build_vocab", "BucketIterator.splits", "next", "iter", "len",
      "Encoder", "Decoder", "Seq2Seq", "model", "torch.argmax",
      "itos_list_en", "print", "bleu_score", "nn.CrossEntropyLoss",
      "optim.Adam", "model.parameters"]),
    ("lab4.2_bonus.ipynb",
     ["random.seed", "np.random.seed", "torch.manual_seed",
      "spacy.load", "Field", "Multi30k.splits", "SRC.build_vocab",
      "TRG.build_vocab", "BucketIterator.splits", "len", "LSTMEncoder",
      "LSTMDecoder", "LSTMSeq2Seq", "GRUEncoder", "GRUDecoder",
      "GRUSeq2Seq", "nn.CrossEntropyLoss", "optim.Adam",
      "lstm_model.parameters", "gru_model.parameters"]),
    ("lab5.1_rnn_attention.ipynb",
     ["random.seed", "np.random.seed", "torch.manual_seed",
      "spacy.load", "Field", "Multi30k.splits", "SRC.build_vocab",
      "TRG.build_vocab", "BucketIterator.splits", "next", "iter",
      "print", "len", "enc_context.squeeze", "torch.ones",
      "nn.CrossEntropyLoss", "optim.Adam", "model.parameters",
      "training_validation_seq2seq", "model.load_state_dict",
      "torch.load", "evaluate_seq2seq", "model", "torch.argmax",
      "itos_list_de", "itos_list_en", "vizualize_attention"]) ]

/-- Statement kinds that catch, translate or deliberately raise
exceptions in Python. -/
def exceptionKinds : List StmtKind :=
  [.tryBlock, .exceptClause, .raiseStmt, .assertStmt]

/-- Call targets that would create threads, processes, pools or other
concurrent execution in the Python ecosystem. -/
def concurrencyPrimitives : List String :=
  ["threading.Thread", "threading.Timer", "multiprocessing.Process",
   "multiprocessing.Pool", "concurrent.futures.ThreadPoolExecutor",
   "concurrent.futures.ProcessPoolExecutor", "asyncio.run",
   "asyncio.create_task", "os.fork", "subprocess.Popen",
   "subprocess.run", "subprocess.call", "os.system"]

/-- Whether a function body contains any exception-handling or
exception-raising statement. -/
def usesExceptionHandling (f : PyFunction) : Bool :=
  f.stmts.any (fun k => exceptionKinds.contains k)

/-- Whether a list of call targets contains a concurrency primitive. -/
def callsConcurrency (calls : List String) : Bool :=
  calls.any (fun c => concurrencyPrimitives.contains c)

/-- The observable operations of one run of training_seq2seq (unnamed
part_000; training_validation_bleu of part_001 and
training_validation_seq2seq of lab5.1 share the same loop skeleton,
without the per-epoch checkpoint).  Epoch and batch indices identify the
iteration issuing the operation. -/
inductive TrainOp
  | zeroGrad (epoch batch : Nat)
  | forwardPass (epoch batch : Nat)
  | lossCompute (epoch batch : Nat)
  | backwardPass (epoch batch : Nat)
  | clipGradNorm (epoch batch : Nat)
  | optimizerStep (epoch batch : Nat)
  | accumulateLoss (epoch batch : Nat)
  | appendEpochLoss (epoch : Nat)
  | saveCheckpoint (epoch : Nat)
deriving DecidableEq

/-- The inner batch loop of training_seq2seq, transcribed statement by
statement: for each batch, in order, optimizer.zero_grad(), the model
forward pass, the loss computation (the slicing and view reshapes before
it are pure and modelled by training_seq2seq_loss), loss.backward(), the
gradient clipping, optimizer.step(), and the accumulation of
loss.item(); the loop then moves to the next batch.  lossOf gives the
scalar loss of a batch in an epoch (the framework numerics are opaque).
Returns the accumulated epoch loss and the emitted operation trace. -/
def trainBatchesGo (lossOf : Nat → Nat → ℚ) (e : Nat) :
    List Nat → ℚ → ℚ × List TrainOp
  | [], acc => (acc, [])
  | b :: bs, acc =>
      let r := trainBatchesGo lossOf e bs (acc + lossOf e b)
      (r.1,
        TrainOp.zeroGrad e b :: TrainOp.forwardPass e b ::
        TrainOp.lossCompute e b :: TrainOp.backwardPass e b ::
        TrainOp.clipGradNorm e b :: TrainOp.optimizerStep e b ::
        TrainOp.accumulateLoss e b :: r.2)

/-- The outer epoch loop of training_seq2seq: each epoch runs the batch
loop from a zero accumulator, appends the epoch loss to loss_total, and
saves the checkpoint. -/
def trainEpochsGo (lossOf : Nat → Nat → ℚ) (batches : List Nat) :
    List Nat → List ℚ × List TrainOp
  | [] => ([], [])
  | e :: es =>
      let rb := trainBatchesGo lossOf e batches 0
      let r := trainEpochsGo lossOf batches es
      (rb.1 :: r.1,
        rb.2 ++ TrainOp.appendEpochLoss e :: TrainOp.saveCheckpoint e :: r.2)

/-- A run of training_seq2seq over numEpochs epochs of numBatches
batches: the recorded loss_total list and the operation trace. -/
def training_seq2seq_run (lossOf : Nat → Nat → ℚ)
    (numEpochs numBatches : Nat) : List ℚ × List TrainOp :=
  trainEpochsGo lossOf (List.range numBatches) (List.range numEpochs)

/-- The complete update of one batch as the spec describes it: zero
gradients, forward pass, loss, backward pass, gradient clipping,
optimizer step, loss accumulation, in this order. -/
def batchUpdateTrace (e b : Nat) : List TrainOp :=
  [TrainOp.zeroGrad e b, TrainOp.forwardPass e b, TrainOp.lossCompute e b,
   TrainOp.backwardPass e b, TrainOp.clipGradNorm e b,
   TrainOp.optimizerStep e b, TrainOp.accumulateLoss e b]

/-- A concrete Seq2Seq instance used to evaluate the theorems below on
explicit inputs: two-layer-free stand-ins for the framework encoder and
decoder (the decoder emits one score row of width 4 per batch element
and increments its natural-number hidden state). -/
def cModel : Seq2Seq Nat Nat :=
  ⟨4, fun src => (src.length, 0),
   fun idx h _ => (idx.map (fun (j : Nat) => [(j : ℚ), (h : ℚ), 7, 0]), h + 1, [[1]])⟩

/-- A concrete source batch of length 2 over batch size 2. -/
def cSrc : List (List Nat) := [[0, 1], [2, 3]]

/-- A concrete attention decoder instance: constant-one exponential
(positive, as the framework exponential), zero energies, identity
dropout and linear layers, and a GRU stand-in returning its input. -/
def cDecoder : Decoder :=
  ⟨fun i => [(i : ℚ)], fun v => v, fun x h => (x, h ++ x), fun v => v,
   ⟨fun _ _ => 0, fun _ => 1⟩⟩

/-- The greedy decoder state of Seq2Seq.forward on a given source batch:
encoder applied first, then t greedy transitions from the start-token
input batch and the encoder final hidden state. -/
def greedyStateOf {ε η : Type} (m : Seq2Seq ε η) (src : List (List Nat))
    (t : Nat) : List Nat × η :=
  greedyState m (m.encoder src).1 (m.encoder src).2 (lastDimLen src) t

/-- The prediction the decoder emits when applied (once) to the greedy
state after t transitions, over the full encoder outputs. -/
def stepPred {ε η : Type} (m : Seq2Seq ε η) (src : List (List Nat))
    (t : Nat) : List (List ℚ) :=
  (m.decoder (greedyStateOf m src t).1 (greedyStateOf m src t).2
    (m.encoder src).1).1

/-- Shape discipline the framework guarantees for the opaque decoder of
a Seq2Seq model: on a batch of B input indices it returns B prediction
rows of width trg_vocab_size (in the source this is the shape contract
of embedding, GRU and linear layers, enforced by the framework at the
store pred_probas[t, :, :] = pred_proba_t). -/
def wellShaped {ε η : Type} (m : Seq2Seq ε η) (B : Nat) : Prop :=
  ∀ (i : List Nat) (h : η) (e : ε), i.length = B →
    (m.decoder i h e).1.length = B ∧
    ∀ row ∈ (m.decoder i h e).1, row.length = m.trg_vocab_size

/-- The value component of argmaxPair bounds every entry of the list. -/
theorem argmaxPair_le (l : List ℚ) : ∀ x ∈ l, x ≤ (argmaxPair l).2 := by
  induction l with
  | nil => intro x hx; cases hx
  | cons a t ih =>
    intro x hx
    cases t with
    | nil =>
      simp only [List.mem_singleton] at hx
      simp [argmaxPair, hx]
    | cons b t2 =>
      simp only [argmaxPair]
      by_cases hlt : a < (argmaxPair (b :: t2)).2
      · simp only [if_pos hlt]
        rcases List.mem_cons.mp hx with h1 | h2
        · exact le_of_lt (h1 ▸ hlt)
        · exact ih x h2
      · simp only [if_neg hlt]
        rcases List.mem_cons.mp hx with h1 | h2
        · exact le_of_eq h1
        · exact le_trans (ih x h2) (le_of_not_lt hlt)

/-- The argmax index points at the argmax value. -/
theorem argmaxPair_getD (l : List ℚ) (hne : l ≠ []) :
    l.getD (argmaxPair l).1 0 = (argmaxPair l).2 := by
  induction l with
  | nil => exact absurd rfl hne
  | cons a t ih =>
    cases t with
    | nil => simp [argmaxPair]
    | cons b t2 =>
      simp only [argmaxPair]
      by_cases hlt : a < (argmaxPair (b :: t2)).2
      · simp only [if_pos hlt]
        simpa using ih (by simp)
      · simp only [if_neg hlt]
        simp

/-- Every entry of a row is bounded by the entry at the argmax index:
argmaxIdx returns a highest-scoring index. -/
theorem argmaxIdx_attains (l : List ℚ) (x : ℚ) (hx : x ∈ l) :
    x ≤ l.getD (argmaxIdx l) 0 := by
  have hne : l ≠ [] := by intro h; subst h; cases hx
  rw [argmaxIdx, argmaxPair_getD l hne]
  exact argmaxPair_le l x hx

theorem setIdx_length (l : List ℚ) (n : Nat) (v : ℚ) :
    (setIdx l n v).length = l.length := by
  induction l generalizing n with
  | nil => rfl
  | cons a t ih =>
    cases n with
    | zero => rfl
    | succ m => simp [setIdx, ih]

theorem setIdx_getD_self (l : List ℚ) (n : Nat) (v : ℚ) (h : n < l.length) :
    (setIdx l n v).getD n 0 = v := by
  induction l generalizing n with
  | nil => cases h
  | cons a t ih =>
    cases n with
    | zero => rfl
    | succ m =>
      simp only [setIdx, List.getD_cons_succ]
      exact ih m (by simpa using h)

theorem setIdx_getD_ne (l : List ℚ) (n : Nat) (v : ℚ) (i : Nat) (h : i ≠ n) :
    (setIdx l n v).getD i 0 = l.getD i 0 := by
  induction l generalizing n i with
  | nil => rfl
  | cons a t ih =>
    cases n with
    | zero =>
      cases i with
      | zero => exact absurd rfl h
      | succ j => rfl
    | succ m =>
      cases i with
      | zero => rfl
      | succ j =>
        simp only [setIdx, List.getD_cons_succ]
        exact ih m j (fun he => h (by simp [he]))

theorem replicate_getD_zero (n i : Nat) :
    (List.replicate n (0 : ℚ)).getD i 0 = 0 := by
  induction n generalizing i with
  | zero => cases i <;> rfl
  | succ m ih =>
    cases i with
    | zero => rfl
    | succ j => simp [List.replicate, ih j]

theorem decodeLoop_length {ε η : Type} (m : Seq2Seq ε η) (e : ε) :
    ∀ (n : Nat) (i : List Nat) (h : η), (decodeLoop m e n i h).length = n := by
  intro n
  induction n with
  | zero => intro i h; rfl
  | succ k ih => intro i h; simp [decodeLoop, ih]

/-- Element t of the decoding loop output is the decoder applied to the
t-fold greedy iterate of the initial state. -/
theorem decodeLoop_get {ε η : Type} (m : Seq2Seq ε η) (e : ε) :
    ∀ (n t : Nat) (i : List Nat) (h : η), t < n →
      (decodeLoop m e n i h).get? t =
        some ((m.decoder ((gstep m e)^[t] (i, h)).1 ((gstep m e)^[t] (i, h)).2 e).1,
              (m.decoder ((gstep m e)^[t] (i, h)).1 ((gstep m e)^[t] (i, h)).2 e).2.2) := by
  intro n
  induction n with
  | zero => intro t i h ht; cases ht
  | succ k ih =>
    intro t i h ht
    cases t with
    | zero => rfl
    | succ u =>
      have hu : u < k := Nat.lt_of_succ_lt_succ ht
      have := ih u ((m.decoder i h e).1.map argmaxIdx) (m.decoder i h e).2.1 hu
      simp only [decodeLoop, List.get?_cons_succ]
      rw [this]
      simp [Function.iterate_succ_apply, gstep]

theorem sum_map_div (l : List ℚ) (f : ℚ → ℚ) (s : ℚ) :
    (l.map (fun x => f x / s)).sum = (l.map f).sum / s := by
  induction l with
  | nil => simp
  | cons a t ih => simp [ih, add_div]

theorem softmaxWith_sum (e : ℚ → ℚ) (l : List ℚ)
    (hs : (l.map e).sum ≠ 0) : (softmaxWith e l).sum = 1 := by
  rw [softmaxWith, sum_map_div, div_self hs]

theorem softmaxWith_pos (e : ℚ → ℚ) (l : List ℚ)
    (hpos : ∀ x, 0 < e x) (hne : l ≠ []) :
    ∀ w ∈ softmaxWith e l, 0 < w := by
  intro w hw
  have hsum : 0 < (l.map e).sum := by
    apply List.sum_pos
    · intro x hx
      rcases List.mem_map.mp hx with ⟨y, _, rfl⟩
      exact hpos y
    · simpa using hne
  rcases List.mem_map.mp hw with ⟨y, _, rfl⟩
  exact div_pos (hpos y) hsum

theorem trainBatchesGo_trace (lossOf : Nat → Nat → ℚ) (e : Nat) :
    ∀ (bs : List Nat) (acc : ℚ),
      (trainBatchesGo lossOf e bs acc).2 = bs.flatMap (batchUpdateTrace e) := by
  intro bs
  induction bs with
  | nil => intro acc; rfl
  | cons b t ih =>
    intro acc
    simp [trainBatchesGo, batchUpdateTrace, ih]

theorem trainBatchesGo_loss (lossOf : Nat → Nat → ℚ) (e : Nat) :
    ∀ (bs : List Nat) (acc : ℚ),
      (trainBatchesGo lossOf e bs acc).1 = acc + (bs.map (lossOf e)).sum := by
  intro bs
  induction bs with
  | nil => intro acc; simp [trainBatchesGo]
  | cons b t ih =>
    intro acc
    simp [trainBatchesGo, ih, add_assoc]

theorem trainEpochsGo_trace (lossOf : Nat → Nat → ℚ) (batches : List Nat) :
    ∀ (es : List Nat),
      (trainEpochsGo lossOf batches es).2 =
        es.flatMap (fun e => batches.flatMap (batchUpdateTrace e) ++
          [TrainOp.appendEpochLoss e, TrainOp.saveCheckpoint e]) := by
  intro es
  induction es with
  | nil => rfl
  | cons e t ih => simp [trainEpochsGo, ih, trainBatchesGo_trace]

/-- Taking a multiple of the fixed block length out of a flatMap of
blocks yields exactly the first blocks: nothing of a later block starts
before an earlier block is complete. -/
theorem flatMap_take_blocks {β : Type} (f : β → List TrainOp) (L : Nat)
    (hf : ∀ b, (f b).length = L) :
    ∀ (bs : List β) (k : Nat), k ≤ bs.length →
      (bs.flatMap f).take (L * k) = (bs.take k).flatMap f := by
  intro bs
  induction bs with
  | nil =>
    intro k hk
    have : k = 0 := Nat.le_zero.mp hk
    subst this; rfl
  | cons b t ih =>
    intro k hk
    cases k with
    | zero => rfl
    | succ j =>
      have hlen : L * (j + 1) = (f b).length + L * j := by
        rw [hf b]; ring
      simp only [List.flatMap_cons, List.take_succ_cons]
      rw [hlen, List.take_append, ih j (Nat.le_of_succ_le_succ hk)]

/-- C1: the Seq2Seq forward pass implements greedy autoregressive
decoding.  For every source batch and target length, and every step t
with 1 <= t < trg_len: the encoder is applied to src first and its
context (final hidden state) seeds the decoder; position t of the
output stack is the prediction of the single decoder application at
step t; the state entering step 1 is the start-token batch (index 2);
the input of step u + 1 is the argmax of the step-u prediction; and the
argmax index is a highest-scoring index of its row. -/
theorem c1_seq2seq_forward_greedy {ε η : Type} (m : Seq2Seq ε η)
    (src : List (List Nat)) (trg_len t : Nat) (h1 : 1 ≤ t)
    (h2 : t < trg_len) :
    ((m.forward src trg_len).1.get? t = some (stepPred m src (t - 1)))
    ∧ (greedyStateOf m src 0).1 = List.replicate (lastDimLen src) 2
    ∧ (∀ u : Nat, (greedyStateOf m src (u + 1)).1 =
        (stepPred m src u).map argmaxIdx)
    ∧ (∀ u : Nat, (greedyStateOf m src (u + 1)).2 =
        (m.decoder (greedyStateOf m src u).1 (greedyStateOf m src u).2
          (m.encoder src).1).2.1)
    ∧ (∀ row ∈ stepPred m src (t - 1), ∀ x ∈ row,
        x ≤ row.getD (argmaxIdx row) 0) := by
  obtain ⟨u, rfl⟩ : ∃ u, t = u + 1 := ⟨t - 1, (Nat.succ_pred_eq_of_pos h1).symm⟩
  have hu : u < trg_len - 1 := by omega
  refine ⟨?_, rfl, ?_, ?_, ?_⟩
  · have hget := decodeLoop_get m (m.encoder src).1 (trg_len - 1) u
      (List.replicate (lastDimLen src) 2) (m.encoder src).2 hu
    simp only [Seq2Seq.forward, List.get?_cons_succ, List.get?_map, hget,
      Option.map_some, Nat.add_sub_cancel]
    rfl
  · intro v
    show (greedyStateOf m src (v + 1)).1 = _
    rw [greedyStateOf, greedyState, Function.iterate_succ_apply']
    rfl
  · intro v
    show (greedyStateOf m src (v + 1)).2 = _
    rw [greedyStateOf, greedyState, Function.iterate_succ_apply']
    rfl
  · intro row _ x hx
    exact argmaxIdx_attains row x hx

/-- Witness for C1 at a concrete model, source batch, target length 3
and step 2, with the step prediction evaluated explicitly. -/
theorem c1_seq2seq_forward_greedy_witness :
    (1 ≤ 2 ∧ 2 < 3)
    ∧ (((cModel.forward cSrc 3).1.get? 2 = some (stepPred cModel cSrc 1))
       ∧ (greedyStateOf cModel cSrc 0).1 = List.replicate (lastDimLen cSrc) 2
       ∧ (∀ u : Nat, (greedyStateOf cModel cSrc (u + 1)).1 =
           (stepPred cModel cSrc u).map argmaxIdx)
       ∧ (∀ u : Nat, (greedyStateOf cModel cSrc (u + 1)).2 =
           (cModel.decoder (greedyStateOf cModel cSrc u).1
             (greedyStateOf cModel cSrc u).2 (cModel.encoder cSrc).1).2.1)
       ∧ (∀ row ∈ stepPred cModel cSrc 1, ∀ x ∈ row,
           x ≤ row.getD (argmaxIdx row) 0))
    ∧ stepPred cModel cSrc 1 = [[2, 1, 7, 0], [2, 1, 7, 0]] :=
  ⟨by decide, c1_seq2seq_forward_greedy cModel cSrc 3 2 (by decide) (by decide),
   by decide⟩

/-- C2: attention is recomputed at every decoding step.  Decoder.forward
returns the Attention module applied to the incoming (current) decoder
hidden state and the full sequence of encoder outputs; the weights form
one softmax-normalised (positive, summing to one) coefficient per source
position; the recurrent cell receives the token embedding concatenated
with the attention-weighted sum of the encoder outputs; and in the
Seq2Seq decoding loop built on this decoder, the attention recorded at
every step t is exactly the Attention module evaluated at that step's
current hidden state per batch element, not a fixed context vector. -/
theorem c2_attention_recomputed (D : Decoder) (input_idx : Nat)
    (input_hidden : List ℚ) (enc_outputs : List (List ℚ))
    (hpos : ∀ x, 0 < D.attention.expf x) (hne : enc_outputs ≠ []) :
    ((D.forward input_idx input_hidden enc_outputs).2.2 =
        D.attention.forward input_hidden enc_outputs)
    ∧ (D.attention.forward input_hidden enc_outputs).length =
        enc_outputs.length
    ∧ (D.attention.forward input_hidden enc_outputs).sum = 1
    ∧ (∀ w ∈ D.attention.forward input_hidden enc_outputs, 0 < w)
    ∧ ((D.forward input_idx input_hidden enc_outputs).1 =
        D.linear_layer (D.gru (D.dropout_layer (D.embedding_layer input_idx) ++
          weightedSumVec (D.attention.forward input_hidden enc_outputs)
            enc_outputs) input_hidden).1)
    ∧ ((D.forward input_idx input_hidden enc_outputs).2.1 =
        (D.gru (D.dropout_layer (D.embedding_layer input_idx) ++
          weightedSumVec (D.attention.forward input_hidden enc_outputs)
            enc_outputs) input_hidden).2)
    ∧ (∀ (V : Nat) (encF : List (List Nat) → List (List ℚ) × List (List ℚ))
        (src : List (List Nat)) (trg_len t : Nat), 1 ≤ t → t < trg_len →
        ((mkAttnSeq2Seq V encF D).forward src trg_len).2.get? (t - 1) =
          some (((greedyStateOf (mkAttnSeq2Seq V encF D) src (t - 1)).1.zip
                 (greedyStateOf (mkAttnSeq2Seq V encF D) src (t - 1)).2).map
            (fun p => D.attention.forward p.2 (encF src).1))) := by
  have hmapne : enc_outputs.map
      (fun h => D.attention.energy_score input_hidden h) ≠ [] := by
    simpa using hne
  refine ⟨rfl, ?_, ?_, ?_, rfl, rfl, ?_⟩
  · simp [Attention.forward, softmaxWith]
  · apply softmaxWith_sum
    have hp : 0 < ((enc_outputs.map
        (fun h => D.attention.energy_score input_hidden h)).map
          D.attention.expf).sum := by
      apply List.sum_pos
      · intro x hx
        rcases List.mem_map.mp hx with ⟨y, _, rfl⟩
        exact hpos y
      · simpa using hne
    exact hp.ne'
  · exact softmaxWith_pos D.attention.expf _ hpos hmapne
  · intro V encF src trg_len t h1 h2
    obtain ⟨u, rfl⟩ : ∃ u, t = u + 1 :=
      ⟨t - 1, (Nat.succ_pred_eq_of_pos h1).symm⟩
    have hu : u < trg_len - 1 := by omega
    have hget := decodeLoop_get (mkAttnSeq2Seq V encF D)
      ((mkAttnSeq2Seq V encF D).encoder src).1 (trg_len - 1) u
      (List.replicate (lastDimLen src) 2)
      ((mkAttnSeq2Seq V encF D).encoder src).2 hu
    simp only [Seq2Seq.forward, List.get?_map, hget, Option.map_some',
      Nat.add_sub_cancel]
    apply congrArg
    show (batchDecoder D _ _ _).2.2 = _
    simp only [batchDecoder, List.map_map]
    apply List.map_congr_left
    intro p _
    simp [Function.comp, Decoder.forward, mkAttnSeq2Seq]

/-- Witness for C2 at a concrete decoder and concrete encoder outputs,
with the attention weights evaluated explicitly. -/
theorem c2_attention_recomputed_witness :
    (∀ x : ℚ, 0 < cDecoder.attention.expf x)
    ∧ ([[(1 : ℚ), 0], [0, 1]] ≠ ([] : List (List ℚ)))
    ∧ (((cDecoder.forward 3 [5] [[1, 0], [0, 1]]).2.2 =
          cDecoder.attention.forward [5] [[1, 0], [0, 1]])
       ∧ (cDecoder.attention.forward [5] [[1, 0], [0, 1]]).length =
           ([[(1 : ℚ), 0], [0, 1]] : List (List ℚ)).length
       ∧ (cDecoder.attention.forward [5] [[1, 0], [0, 1]]).sum = 1
       ∧ (∀ w ∈ cDecoder.attention.forward [5] [[1, 0], [0, 1]], 0 < w)
       ∧ ((cDecoder.forward 3 [5] [[1, 0], [0, 1]]).1 =
           cDecoder.linear_layer (cDecoder.gru
             (cDecoder.dropout_layer (cDecoder.embedding_layer 3) ++
               weightedSumVec (cDecoder.attention.forward [5] [[1, 0], [0, 1]])
                 [[1, 0], [0, 1]]) [5]).1)
       ∧ ((cDecoder.forward 3 [5] [[1, 0], [0, 1]]).2.1 =
           (cDecoder.gru
             (cDecoder.dropout_layer (cDecoder.embedding_layer 3) ++
               weightedSumVec (cDecoder.attention.forward [5] [[1, 0], [0, 1]])
                 [[1, 0], [0, 1]]) [5]).2)
       ∧ (∀ (V : Nat) (encF : List (List Nat) → List (List ℚ) × List (List ℚ))
           (src : List (List Nat)) (trg_len t : Nat), 1 ≤ t → t < trg_len →
           ((mkAttnSeq2Seq V encF cDecoder).forward src trg_len).2.get? (t - 1) =
             some (((greedyStateOf (mkAttnSeq2Seq V encF cDecoder) src (t - 1)).1.zip
                    (greedyStateOf (mkAttnSeq2Seq V encF cDecoder) src (t - 1)).2).map
               (fun p => cDecoder.attention.forward p.2 (encF src).1))))
    ∧ cDecoder.attention.forward [5] [[1, 0], [0, 1]] = [1/2, 1/2] :=
  ⟨fun _ => one_pos, by decide,
   c2_attention_recomputed cDecoder 3 [5] [[1, 0], [0, 1]]
     (fun _ => one_pos) (by decide),
   by norm_num [Attention.forward, softmaxWith, cDecoder]⟩

/-- C3 counterexample: the claim that the vocabulary tables carry no
repository-relied-upon invariant fails.  Seq2Seq.forward hardwires the
token index 2 (startTokenIndex) as the first decoder input, so its
decoding starts from the start-of-sentence token only for vocabulary
tables satisfying startsFromSos; the concrete table ["<sos>"], which
does contain the token, violates it.  The second conjunct exhibits the
hardwired index inside the embedded forward pass at a concrete model
and source batch: position 1 of the output is the decoder applied to a
batch of copies of startTokenIndex, whatever the vocabulary is. -/
theorem c3_counterexample :
    (¬ ∀ itos : List String, sosToken ∈ itos → startsFromSos itos)
    ∧ (cModel.forward cSrc 2).1.get? 1 =
        some (cModel.decoder (List.replicate (lastDimLen cSrc) startTokenIndex)
          (cModel.encoder cSrc).2 (cModel.encoder cSrc).1).1 := by
  constructor
  · intro hall
    have h := hall [sosToken] (List.mem_singleton.mpr rfl)
    simp [startsFromSos, startTokenIndex] at h
  · decide

/-- C3 amended: the framework tensors carry no extra invariants, but the
vocabulary tables do carry one the repository relies on: Seq2Seq.forward
hardwires index 2 both as the initial decoder input and as the hot index
of the position-0 prediction, so it decodes from the start-of-sentence
token exactly when the table maps index 2 to that token, which the
torchtext vocabulary build used by every notebook (specials unk, pad,
sos, eos first) guarantees. -/
theorem c3_amended_vocab_invariant {ε η : Type} (m : Seq2Seq ε η)
    (src : List (List Nat)) (trg_len : Nat) (words : List String)
    (h2 : 2 ≤ trg_len) :
    startsFromSos (build_vocab_itos words)
    ∧ (m.forward src trg_len).1.get? 1 =
        some (m.decoder (List.replicate (lastDimLen src) startTokenIndex)
          (m.encoder src).2 (m.encoder src).1).1
    ∧ (m.forward src trg_len).1.get? 0 =
        some (List.replicate (lastDimLen src)
          (setIdx (List.replicate m.trg_vocab_size 0) startTokenIndex 1)) := by
  refine ⟨rfl, ?_, rfl⟩
  have h0 : (0 : Nat) < trg_len - 1 := by omega
  have hget := decodeLoop_get m (m.encoder src).1 (trg_len - 1) 0
    (List.replicate (lastDimLen src) 2) (m.encoder src).2 h0
  simp only [Seq2Seq.forward, List.get?_cons_succ, List.get?_map, hget,
    Option.map_some', Function.iterate_zero_apply]
  rfl

/-- Witness for the amended C3 at a concrete model, source batch and
vocabulary word list, with the built table evaluated explicitly. -/
theorem c3_amended_vocab_invariant_witness :
    (2 ≤ 2)
    ∧ (startsFromSos (build_vocab_itos ["a"])
       ∧ (cModel.forward cSrc 2).1.get? 1 =
           some (cModel.decoder (List.replicate (lastDimLen cSrc) startTokenIndex)
             (cModel.encoder cSrc).2 (cModel.encoder cSrc).1).1
       ∧ (cModel.forward cSrc 2).1.get? 0 =
           some (List.replicate (lastDimLen cSrc)
             (setIdx (List.replicate cModel.trg_vocab_size 0) startTokenIndex 1)))
    ∧ build_vocab_itos ["a"] = ["<unk>", "<pad>", "<sos>", "<eos>", "a"] :=
  ⟨by decide, c3_amended_vocab_invariant cModel cSrc 2 ["a"] (by decide),
   by decide⟩

theorem decodeLoop_shapes {ε η : Type} (m : Seq2Seq ε η) (e : ε) (B : Nat)
    (hw : wellShaped m B) :
    ∀ (n : Nat) (i : List Nat) (h : η), i.length = B →
      ∀ s ∈ decodeLoop m e n i h,
        s.1.length = B ∧ ∀ row ∈ s.1, row.length = m.trg_vocab_size := by
  intro n
  induction n with
  | zero => intro i h hi s hs; cases hs
  | succ k ih =>
    intro i h hi s hs
    simp only [decodeLoop, List.mem_cons] at hs
    rcases hs with rfl | hmem
    · exact hw i h e hi
    · exact ih ((m.decoder i h e).1.map argmaxIdx) (m.decoder i h e).2.1
        (by simp [(hw i h e hi).1]) s hmem

/-- C4: for every source batch (of any sequence length) and every
requested target length trg_len >= 1, the prediction stack returned by
Seq2Seq.forward covers exactly trg_len output positions, each a
batch-size list of rows of width trg_vocab_size, and the number of
output positions does not depend on the source batch at all. -/
theorem c4_forward_shape {ε η : Type} (m : Seq2Seq ε η)
    (src : List (List Nat)) (trg_len : Nat) (h1 : 1 ≤ trg_len)
    (hw : wellShaped m (lastDimLen src)) :
    (m.forward src trg_len).1.length = trg_len
    ∧ (∀ row ∈ (m.forward src trg_len).1,
        row.length = lastDimLen src ∧
        ∀ p ∈ row, p.length = m.trg_vocab_size)
    ∧ (∀ src2 : List (List Nat), (m.forward src2 trg_len).1.length = trg_len) := by
  refine ⟨?_, ?_, ?_⟩
  · simp only [Seq2Seq.forward, List.length_cons, List.length_map,
      decodeLoop_length]
    omega
  · intro row hrow
    simp only [Seq2Seq.forward, List.mem_cons] at hrow
    rcases hrow with rfl | hrow
    · refine ⟨by simp, ?_⟩
      intro p hp
      rw [List.eq_of_mem_replicate hp, setIdx_length, List.length_replicate]
    · rcases List.mem_map.mp hrow with ⟨s, hs, rfl⟩
      exact decodeLoop_shapes m (m.encoder src).1 (lastDimLen src) hw
        (trg_len - 1) (List.replicate (lastDimLen src) 2) (m.encoder src).2
        (List.length_replicate _ _) s hs
  · intro src2
    simp only [Seq2Seq.forward, List.length_cons, List.length_map,
      decodeLoop_length]
    omega

theorem cModel_wellShaped : wellShaped cModel 2 := by
  intro i h e hi
  constructor
  · show (i.map (fun (j : Nat) => [(j : ℚ), (h : ℚ), 7, 0])).length = 2
    rw [List.length_map]
    exact hi
  · intro row hrow
    have hrow2 : row ∈ i.map (fun (j : Nat) => [(j : ℚ), (h : ℚ), 7, 0]) := hrow
    obtain ⟨j, _, rfl⟩ := List.mem_map.mp hrow2
    rfl

/-- Witness for C4 at the concrete model and batch, with the full output
stack evaluated explicitly. -/
theorem c4_forward_shape_witness :
    (1 ≤ 3 ∧ wellShaped cModel (lastDimLen cSrc))
    ∧ ((cModel.forward cSrc 3).1.length = 3
       ∧ (∀ row ∈ (cModel.forward cSrc 3).1,
           row.length = lastDimLen cSrc ∧
           ∀ p ∈ row, p.length = cModel.trg_vocab_size)
       ∧ (∀ src2 : List (List Nat), (cModel.forward src2 3).1.length = 3))
    ∧ (cModel.forward cSrc 3).1 =
        [[[0, 0, 1, 0], [0, 0, 1, 0]],
         [[2, 0, 7, 0], [2, 0, 7, 0]],
         [[2, 1, 7, 0], [2, 1, 7, 0]]] :=
  ⟨⟨by decide, cModel_wellShaped⟩,
   c4_forward_shape cModel cSrc 3 (by decide) cModel_wellShaped,
   by decide⟩

set_option linter.unusedVariables false in
/-- C8: position 0 of the prediction stack is fixed independently of the
input, the model and any randomness: it is the batch of one-hot rows
with value 1 at vocabulary index 2 and 0 at every other index, and any
two models with the same target vocabulary size on any two sources with
the same batch size agree on it. -/
theorem c8_position_zero_fixed {ε η : Type} (m : Seq2Seq ε η)
    (src : List (List Nat)) (trg_len : Nat) (h1 : 1 ≤ trg_len)
    (hv : 2 < m.trg_vocab_size) :
    ((m.forward src trg_len).1.get? 0 =
        some (List.replicate (lastDimLen src)
          (setIdx (List.replicate m.trg_vocab_size 0) 2 1)))
    ∧ (∀ p ∈ List.replicate (lastDimLen src)
          (setIdx (List.replicate m.trg_vocab_size 0) 2 1),
        p.getD 2 0 = 1 ∧
        ∀ i : Nat, i < m.trg_vocab_size → i ≠ 2 → p.getD i 0 = 0)
    ∧ (∀ {ε2 η2 : Type} (m2 : Seq2Seq ε2 η2) (src2 : List (List Nat)),
        m2.trg_vocab_size = m.trg_vocab_size →
        lastDimLen src2 = lastDimLen src →
        (m2.forward src2 trg_len).1.get? 0 =
          (m.forward src trg_len).1.get? 0) := by
  refine ⟨rfl, ?_, ?_⟩
  · intro p hp
    rw [List.eq_of_mem_replicate hp]
    refine ⟨setIdx_getD_self _ 2 1 (by simpa using hv), ?_⟩
    intro i hi hne2
    rw [setIdx_getD_ne _ 2 1 i hne2, replicate_getD_zero]
  · intro ε2 η2 m2 src2 hV hB
    simp only [Seq2Seq.forward, List.get?_cons_zero]
    rw [hV, hB]

/-- Witness for C8 at the concrete model and batch, with the position-0
prediction evaluated explicitly. -/
theorem c8_position_zero_fixed_witness :
    (1 ≤ 1 ∧ 2 < cModel.trg_vocab_size)
    ∧ (((cModel.forward cSrc 1).1.get? 0 =
          some (List.replicate (lastDimLen cSrc)
            (setIdx (List.replicate cModel.trg_vocab_size 0) 2 1)))
       ∧ (∀ p ∈ List.replicate (lastDimLen cSrc)
             (setIdx (List.replicate cModel.trg_vocab_size 0) 2 1),
           p.getD 2 0 = 1 ∧
           ∀ i : Nat, i < cModel.trg_vocab_size → i ≠ 2 → p.getD i 0 = 0)
       ∧ (∀ {ε2 η2 : Type} (m2 : Seq2Seq ε2 η2) (src2 : List (List Nat)),
           m2.trg_vocab_size = cModel.trg_vocab_size →
           lastDimLen src2 = lastDimLen cSrc →
           (m2.forward src2 1).1.get? 0 = (cModel.forward cSrc 1).1.get? 0))
    ∧ (cModel.forward cSrc 1).1.get? 0 = some [[0, 0, 1, 0], [0, 0, 1, 0]] :=
  ⟨by decide, c8_position_zero_fixed cModel cSrc 1 (by decide) (by decide),
   by decide⟩

/-- C5 counterexample: not every file write performed by repository code
is torch.save applied to a state_dict.  The basics notebook writes the
numpy array x_np with numpy.save (and also a raw tensor and a whole
module object with torch.save); the exhibited catalogue entry is a write
that is not a state-dict checkpoint. -/
theorem c5_counterexample :
    (¬ ∀ w ∈ repoFileWrites, isStateDictSave w = true)
    ∧ (⟨"lab1.1_basics.ipynb cells", "numpy.save", "x_np.npy",
         SavedValue.numpyArray "x_np"⟩ : FileWrite) ∈ repoFileWrites
    ∧ isStateDictSave ⟨"lab1.1_basics.ipynb cells", "numpy.save",
         "x_np.npy", SavedValue.numpyArray "x_np"⟩ = false := by
  decide

/-- C5 amended: every file write performed by repository code is
delegated to a framework save routine (torch.save or numpy.save); the
writes issued from inside the seq2seq training loops are exactly ad hoc
state-dict checkpoints, but the basics notebook additionally writes a
numpy array, a raw tensor and a whole module object. -/
theorem c5_amended_framework_saves :
    repoFileWrites.all isFrameworkSave = true
    ∧ trainingLoopWrites.all isStateDictSave = true
    ∧ trainingLoopWrites.all (fun w => repoFileWrites.contains w) = true := by
  decide

/-- C6: no repository-defined function contains a try block, an except
clause, a raise statement or an assert: no function catches, wraps,
translates or deliberately raises an exception, so a failure inside a
framework call propagates out of repository code unchanged. -/
theorem c6_no_exception_handling :
    repoFunctions.all (fun f => !(usesExceptionHandling f)) = true := by
  decide

theorem trainEpochsGo_losses (lossOf : Nat → Nat → ℚ) (batches : List Nat) :
    ∀ (es : List Nat),
      (trainEpochsGo lossOf batches es).1 =
        es.map (fun e => (batches.map (lossOf e)).sum) := by
  intro es
  induction es with
  | nil => rfl
  | cons e t ih =>
    simp [trainEpochsGo, ih, trainBatchesGo_loss]

/-- C7: training is a single synchronous loop over batches.  The trace
of a training run is exactly the epochs in order, each the batch-update
traces of its batches in order followed by the epoch bookkeeping; the
first 7 * k operations of any batch sequence are exactly the k first
complete batch updates, so a batch update finishes before the next
starts; each batch update performs zero-grad, forward, loss, backward,
clip, step and loss accumulation in that order; the recorded loss_total
has one entry per epoch, the sum of its batch losses; and no repository
function or top-level cell calls a thread-, process-, pool- or
subprocess-creating primitive. -/
theorem c7_sequential_training (lossOf : Nat → Nat → ℚ) (nE nB : Nat) :
    ((training_seq2seq_run lossOf nE nB).2 =
       (List.range nE).flatMap (fun e =>
         (List.range nB).flatMap (batchUpdateTrace e) ++
           [TrainOp.appendEpochLoss e, TrainOp.saveCheckpoint e]))
    ∧ (∀ (e : Nat) (bs : List Nat) (k : Nat), k ≤ bs.length →
        (bs.flatMap (batchUpdateTrace e)).take (7 * k) =
          (bs.take k).flatMap (batchUpdateTrace e))
    ∧ (∀ e b : Nat, batchUpdateTrace e b =
        [TrainOp.zeroGrad e b, TrainOp.forwardPass e b,
         TrainOp.lossCompute e b, TrainOp.backwardPass e b,
         TrainOp.clipGradNorm e b, TrainOp.optimizerStep e b,
         TrainOp.accumulateLoss e b])
    ∧ ((training_seq2seq_run lossOf nE nB).1 =
        (List.range nE).map (fun e => ((List.range nB).map (lossOf e)).sum))
    ∧ repoFunctions.all (fun f => !(callsConcurrency f.calls)) = true
    ∧ repoTopLevelCalls.all (fun u => !(callsConcurrency u.2)) = true := by
  refine ⟨?_, ?_, fun e b => rfl, ?_, by decide, by decide⟩
  · exact trainEpochsGo_trace lossOf (List.range nB) (List.range nE)
  · intro e bs k hk
    exact flatMap_take_blocks (batchUpdateTrace e) 7 (fun b => rfl) bs k hk
  · exact trainEpochsGo_losses lossOf (List.range nB) (List.range nE)

/-- C9: both training and evaluation compute the loss only over target
positions 1 .. trg_len - 1.  Each of the three loss computations slices
off position 0 of the predictions and of the targets before applying
the framework loss, so replacing position 0 of either tensor by
anything leaves the computed loss unchanged, and the loss is the
framework loss of exactly the flattened tail positions. -/
theorem c9_loss_ignores_position_zero
    (loss_fn : List (List ℚ) → List Nat → ℚ)
    (p0 q0 : List (List ℚ)) (rest : List (List (List ℚ)))
    (t0 s0 : List Nat) (trest : List (List Nat)) :
    (training_seq2seq_loss loss_fn (p0 :: rest) (t0 :: trest) =
       training_seq2seq_loss loss_fn (q0 :: rest) (s0 :: trest))
    ∧ (evaluate_seq2seq_loss loss_fn (p0 :: rest) (t0 :: trest) =
       evaluate_seq2seq_loss loss_fn (q0 :: rest) (s0 :: trest))
    ∧ (training_validation_bleu_loss loss_fn (p0 :: rest) (t0 :: trest) =
       training_validation_bleu_loss loss_fn (q0 :: rest) (s0 :: trest))
    ∧ (training_seq2seq_loss loss_fn (p0 :: rest) (t0 :: trest) =
       loss_fn rest.flatten trest.flatten)
    ∧ (evaluate_seq2seq_loss loss_fn (p0 :: rest) (t0 :: trest) =
       loss_fn rest.flatten trest.flatten)
    ∧ (training_validation_bleu_loss loss_fn (p0 :: rest) (t0 :: trest) =
       loss_fn rest.flatten trest.flatten) :=
  ⟨rfl, rfl, rfl, rfl, rfl, rfl⟩

/-- C10: in the BLEU notebook data setup, the test split is replaced by
the first 100 examples of the (already truncated to 1000) training
split: the resulting test list is the 100-prefix of the resulting
training list (equivalently of the original training list), does not
depend on the true test split at all, and every one of its examples is
an example of the resulting training split. -/
theorem c10_test_split_is_training_data {α : Type}
    (train_ex valid_ex test_ex : List α) :
    ((bleu_data_setup train_ex valid_ex test_ex).2.2 =
       (bleu_data_setup train_ex valid_ex test_ex).1.take 100)
    ∧ ((bleu_data_setup train_ex valid_ex test_ex).2.2 = train_ex.take 100)
    ∧ (∀ other_test : List α,
        (bleu_data_setup train_ex valid_ex other_test).2.2 =
          (bleu_data_setup train_ex valid_ex test_ex).2.2)
    ∧ (∀ x ∈ (bleu_data_setup train_ex valid_ex test_ex).2.2,
        x ∈ (bleu_data_setup train_ex valid_ex test_ex).1) := by
  refine ⟨rfl, ?_, fun other_test => rfl, ?_⟩
  · show (train_ex.take 1000).take 100 = train_ex.take 100
    rw [List.take_take]
    norm_num
  · intro x hx
    exact List.mem_of_mem_take hx
